import Mathlib

/-!
Verification of the skygear SDK authenticated request pipeline
(`packages/skygear-core/src/client.ts`) against its natural-language
specification.

The embedding is shallow: JavaScript values that travel through the pipeline
are modelled by an inductive JSON value type, the mutable fields of
`BaseAPIClient` are threaded explicitly as a state record, the injected
`fetchFunction` transport is a function from the index of the physical
exchange to the response it produces, and every network-facing operation
returns an `Outcome`: the result (or thrown error), the final mutable state,
and the trace of observable events (physical exchanges with the headers and
body they carry, and invocations of the injected refresh capability).
-/

namespace Skygear

/-- A parsed JSON value.  JavaScript numbers are modelled as integers; no
claim depends on fractional values. -/
inductive JValue where
  | null : JValue
  | bool (b : Bool) : JValue
  | num (n : Int) : JValue
  | str (s : String) : JValue
  | arr (elems : List JValue) : JValue
  | obj (fields : List (String × JValue)) : JValue

/-- JavaScript truthiness of a JSON value: null, false, 0 and the empty
string are falsy; every array and object (even empty) is truthy. -/
def truthy : JValue → Bool
  | .null => false
  | .bool b => b
  | .num n => n != 0
  | .str s => s != ""
  | .arr _ => true
  | .obj _ => true

/-- Truthiness of a possibly-undefined value (undefined is falsy). -/
def truthyOpt (o : Option JValue) : Bool :=
  (o.map truthy).getD false

/-- JavaScript property access `v[key]` on a parsed JSON value: a lookup on
objects, undefined (`none`) on every other shape.  Parsed JSON objects have
no duplicate keys, so association-list lookup is faithful. -/
def jsGet (v : JValue) (key : String) : Option JValue :=
  match v with
  | .obj fields => fields.lookup key
  | _ => none

/-- A JavaScript object used as an outgoing payload, before JSON
serialization.  A `none` value models a property that is present but
`undefined` (such entries are dropped by `JSON.stringify`). -/
abbrev JsObj := List (String × Option JValue)

/-- The defined value of a payload property: `none` when the key is absent
or its value is undefined. -/
def definedGet (o : JsObj) (k : String) : Option JValue :=
  (o.lookup k).join

/-- Key update on a string-keyed association list without duplicate keys
(JavaScript objects and the `Headers` map both maintain key uniqueness):
an existing key keeps its position with the value overwritten, a new key
is appended. -/
def assocSet {β : Type} (o : List (String × β)) (k : String) (v : β) :
    List (String × β) :=
  match o with
  | [] => [(k, v)]
  | p :: rest => if p.1 == k then (k, v) :: rest else p :: assocSet rest k v

/-- JavaScript object update `{...o, k: v}`. -/
def jsObjSet (o : JsObj) (k : String) (v : Option JValue) : JsObj :=
  assocSet o k v

/-- A header map with `Headers.set` update semantics. -/
abbrev Headers := List (String × String)

/-- `Headers.set`: overwrite in place when the header exists, append
otherwise.  All header names used by the client are already lowercase. -/
def setHeader (hs : Headers) (k v : String) : Headers :=
  assocSet hs k v

/-- Apply `Headers.set` for every pair of `new`, in order, on top of `base`.
This is the `for (const key of Object.keys(headers)) request.headers.set`
loop of `BaseAPIClient.fetch`. -/
def setAllHeaders (base : Headers) (new : Headers) : Headers :=
  new.foldl (fun acc p => setHeader acc p.1 p.2) base

/-- Look a header up by name. -/
def getHeader (hs : Headers) (k : String) : Option String :=
  hs.lookup k

/-- Modelled from the spec: types.ts is not under src/.  An authentication
session represents a pending, not yet fully authenticated login; the client
only ever reads its `token` field. -/
structure AuthenticationSession where
  token : String

/-- The mutable fields of `BaseAPIClient` that the request pipeline reads
and that injected callbacks may write. -/
structure MutState where
  _accessToken : Option String
  _authenticationSession : Option AuthenticationSession

/-- The configuration of a `BaseAPIClient`: fields that are not mutated by
any modelled operation.  The injected `refreshTokenFunction` is modelled as
a pure function from the mutable state to the updated mutable state and the
boolean success flag it resolves to.  `getExtraSessionInfo` is modelled by
the header value its configured supplier would yield: `none` when no
supplier is configured, `some none` when the supplier returns null, and
`some (some s)` when it returns an object whose base64-encoded JSON
serialization is `s` (base64.ts is not under src/ and no claim inspects the
encoding, so the encoded string is kept abstract). -/
structure ClientConfig where
  apiKey : String
  endpoint : String
  hasFetchFunction : Bool
  hasRequestClass : Bool
  refreshTokenFunction : Option (MutState → MutState × Bool)
  userAgent : Option String
  getExtraSessionInfo : Option (Option String)

/-- An HTTP response as the pipeline observes it: the value of the
stale-token response header, the numeric status, and the parsed JSON body
(`none` when `response.json()` rejects). -/
structure Response where
  tryRefreshHeader : Option String
  status : Int
  jsonBody : Option JValue

/-- `shouldRefreshToken`: the response signals a stale access token iff the
header `x-skygear-try-refresh-token` equals the literal string "true". -/
def shouldRefreshToken (r : Response) : Bool :=
  r.tryRefreshHeader == some "true"

/-- An injected transport: the response produced by the n-th physical
exchange of one logical call. -/
abbrev Transport := Nat → Response

/-- The HTTP method of a request descriptor. -/
inductive Method where
  | get : Method
  | post : Method
  | del : Method

/-- An observable event of a logical call: one physical HTTP exchange (with
the method, URL, headers and payload it carries) or one invocation of the
injected refresh capability. -/
inductive Event where
  | exchange (method : Method) (url : String) (headers : Headers) (body : Option JsObj) : Event
  | refreshCall : Event

/-- A structured error.  Modelled from the spec: error.ts is not under
src/; the spec describes a decoded error as kind (general category), name
(specific identifier) and an optional structured info payload, plus the
human-readable message given to the constructor. -/
structure SkygearError where
  message : String
  kind : String
  name : String
  info : Option JValue

/-- An error thrown by the pipeline: either a plain `Error` with a message
or a structured `SkygearError`. -/
inductive ReqError where
  | err (message : String) : ReqError
  | skygear (e : SkygearError) : ReqError

/-- The outcome of a network-facing operation: its result or thrown error,
the final mutable client state, and the trace of observable events. -/
structure Outcome (α : Type) where
  result : Except ReqError α
  state : MutState
  events : List Event

/-- Modelled from the spec: error.ts is not under src/.  `decodeError`
turns the envelope `error` value into a structured error whose kind and
name match the envelope; called with no argument it yields the generic
malformed-envelope error. -/
def decodeError (e : Option JValue) : SkygearError :=
  match e with
  | some v =>
    { message := match jsGet v "message" with | some (.str s) => s | _ => ""
      kind := match jsGet v "kind" with | some (.str s) => s | _ => ""
      name := match jsGet v "name" with | some (.str s) => s | _ => ""
      info := jsGet v "info" }
  | none =>
    { message := "malformed envelope"
      kind := "InternalError"
      name := "UnexpectedError"
      info := none }

/-- `_gearEndpoint` substitution on character lists: the regular expression
`^(http:\/\/|https:\/\/|\/\/)(.*)$` replaced by `$1<gear>.$2`, which
inserts the gear subdomain and a dot right after the scheme prefix and
leaves the string unchanged when no alternative matches.  Endpoints are
modelled as single-line strings: line terminators, which the dot of the
regular expression would refuse, are not represented. -/
def gearReplaceData (e g : List Char) : List Char :=
  if "http://".data.isPrefixOf e then "http://".data ++ g ++ ['.'] ++ e.drop 7
  else if "https://".data.isPrefixOf e then "https://".data ++ g ++ ['.'] ++ e.drop 8
  else if "//".data.isPrefixOf e then "//".data ++ g ++ ['.'] ++ e.drop 2
  else e

/-- The string-level gear substitution. -/
def gearReplace (appEndpoint gearSubdomain : String) : String :=
  String.mk (gearReplaceData appEndpoint.data gearSubdomain.data)

/-- Whether the endpoint starts with one of the three scheme prefixes the
substitution recognizes. -/
def hasSchemePrefix (e : String) : Bool :=
  "http://".data.isPrefixOf e.data || "https://".data.isPrefixOf e.data
    || "//".data.isPrefixOf e.data

/-- `_gearEndpoint`: substitute the gear subdomain into the app endpoint
and throw "invalid app endpoint" when the substitution left the string
unchanged. -/
def _gearEndpoint (appEndpoint gearSubdomain : String) : Except String String :=
  let gearEndpoint := gearReplace appEndpoint gearSubdomain
  if gearEndpoint = appEndpoint then .error "invalid app endpoint"
  else .ok gearEndpoint

theorem gearReplace_ne_of_prefix (E G : String) (h : hasSchemePrefix E = true) :
    gearReplace E G ≠ E := by
  intro heq
  have hdata : gearReplaceData E.data G.data = E.data := by
    have := congrArg String.data heq
    simpa [gearReplace] using this
  have hlen := congrArg List.length hdata
  unfold hasSchemePrefix at h
  unfold gearReplaceData at hlen
  by_cases h1 : "http://".data.isPrefixOf E.data
  · simp only [h1, if_true] at hlen
    simp [List.length_append, List.length_drop] at hlen
    omega
  · by_cases h2 : "https://".data.isPrefixOf E.data
    · simp only [h1, h2, if_true, if_false] at hlen
      simp [List.length_append, List.length_drop] at hlen
      omega
    · by_cases h3 : "//".data.isPrefixOf E.data
      · simp only [h1, h2, h3, if_true, if_false] at hlen
        simp [List.length_append, List.length_drop] at hlen
        omega
      · simp [h1, h2, h3] at h

theorem gearReplace_eq_of_no_prefix (E G : String) (h : hasSchemePrefix E = false) :
    gearReplace E G = E := by
  unfold hasSchemePrefix at h
  simp only [Bool.or_eq_false_iff] at h
  obtain ⟨⟨h1, h2⟩, h3⟩ := h
  unfold gearReplace gearReplaceData
  rw [h1, h2, h3]
  simp

/-- C8: `_gearEndpoint` is deterministic; on an endpoint carrying one of
the recognized scheme prefixes it returns the scheme-insertion string,
which always differs from the input; on an endpoint with no such prefix
(where the substitution leaves the string unchanged) it throws "invalid
app endpoint"; and a returned string is never equal to the input. -/
theorem gearEndpoint_spec (E G : String) :
    _gearEndpoint E G = _gearEndpoint E G
    ∧ (hasSchemePrefix E = true →
        _gearEndpoint E G = .ok (gearReplace E G) ∧ gearReplace E G ≠ E)
    ∧ (hasSchemePrefix E = false → _gearEndpoint E G = .error "invalid app endpoint")
    ∧ (∀ r, _gearEndpoint E G = .ok r → r ≠ E) := by
  refine ⟨rfl, ?_, ?_, ?_⟩
  · intro h
    have hne := gearReplace_ne_of_prefix E G h
    constructor
    · unfold _gearEndpoint
      simp [hne]
    · exact hne
  · intro h
    have heq := gearReplace_eq_of_no_prefix E G h
    unfold _gearEndpoint
    simp [heq]
  · intro r hok
    unfold _gearEndpoint at hok
    by_cases hc : gearReplace E G = E
    · simp [hc] at hok
    · simp [hc] at hok
      intro hrE
      exact hc (by rw [hok, hrE])

/-- Witness for C8 at the endpoint "https://demo.skygear.io" and gear
"accounts": the prefix is recognized, the derived endpoint is the
subdomain insertion, and it differs from the input. -/
theorem gearEndpoint_spec_witness :
    hasSchemePrefix "https://demo.skygear.io" = true
    ∧ _gearEndpoint "https://demo.skygear.io" "accounts"
        = .ok (gearReplace "https://demo.skygear.io" "accounts")
    ∧ gearReplace "https://demo.skygear.io" "accounts" ≠ "https://demo.skygear.io" := by
  have h : hasSchemePrefix "https://demo.skygear.io" = true := by decide
  have hmain := (gearEndpoint_spec "https://demo.skygear.io" "accounts").2.1 h
  exact ⟨h, hmain.1, hmain.2⟩

/-- `prepareHeaders`: the API key is always present; the bearer
authorization header is added iff the current access token is truthy (a
non-empty string); the user-agent header iff one is configured; the
encoded extra-session-info header iff the supplier is configured and
returns a truthy (non-null object) value. -/
def prepareHeaders (cfg : ClientConfig) (st : MutState) : Headers :=
  let headers : Headers := [("x-skygear-api-key", cfg.apiKey)]
  let headers := match st._accessToken with
    | some tok => if tok != "" then headers ++ [("authorization", "bearer " ++ tok)] else headers
    | none => headers
  let headers := match cfg.userAgent with
    | some ua => headers ++ [("user-agent", ua)]
    | none => headers
  let headers := match cfg.getExtraSessionInfo with
    | some (some encoded) => headers ++ [("x-skygear-extra-info", encoded)]
    | _ => headers
  headers

/-- `input.replace(/^\//, "")`: drop a single leading slash. -/
def stripOneLeadingSlash (s : String) : String :=
  if s.startsWith "/" then s.drop 1 else s

/-- The URL of a logical call: the configured endpoint, a slash, and the
input path with its leading slash dropped. -/
def fetchURL (cfg : ClientConfig) (input : String) : String :=
  cfg.endpoint ++ "/" ++ stripOneLeadingSlash input

/-- `BaseAPIClient.fetch`: check the injected transport pieces, resolve the
`autoRefreshToken` default (enabled iff a refresh capability is
configured), build the URL, set the prepared headers on the request, issue
the first physical exchange; when the response signals a stale token and
auto-refresh is enabled, require the refresh capability, invoke it, and on
success clone the request, set freshly prepared headers on top of the
previous ones, and issue exactly one retry exchange whose response is
returned without inspecting its stale-token header. -/
def fetchM (cfg : ClientConfig) (st : MutState) (transport : Transport)
    (method : Method) (input : String) (initHeaders : Headers)
    (body : Option JsObj) (autoRefreshTokenOpt : Option Bool) :
    Outcome Response :=
  if !cfg.hasFetchFunction then
    ⟨.error (.err "missing fetchFunction in api client"), st, []⟩
  else if !cfg.hasRequestClass then
    ⟨.error (.err "missing requestClass in api client"), st, []⟩
  else
    let autoRefreshToken := autoRefreshTokenOpt.getD cfg.refreshTokenFunction.isSome
    let url := fetchURL cfg input
    let headers0 := setAllHeaders initHeaders (prepareHeaders cfg st)
    let response0 := transport 0
    if shouldRefreshToken response0 && autoRefreshToken then
      match cfg.refreshTokenFunction with
      | none =>
        ⟨.error (.err "missing refreshTokenFunction in api client"), st,
          [.exchange method url headers0 body]⟩
      | some f =>
        let refreshed := f st
        if refreshed.2 then
          let headers1 := setAllHeaders headers0 (prepareHeaders cfg refreshed.1)
          ⟨.ok (transport 1), refreshed.1,
            [.exchange method url headers0 body, .refreshCall,
              .exchange method url headers1 body]⟩
        else
          ⟨.ok response0, refreshed.1,
            [.exchange method url headers0 body, .refreshCall]⟩
    else ⟨.ok response0, st, [.exchange method url headers0 body]⟩

/-- The envelope decode step of `BaseAPIClient.request` (its final lines):
return the value under `result` when truthy, otherwise throw the error
decoded from the value under `error` when that is truthy, otherwise throw
the generic malformed-envelope error.  Property access on a non-object
body yields undefined, so such bodies fall through to the generic error
(all claims concern object envelopes). -/
def decodeResponseJSON (jsonBody : JValue) : Except ReqError JValue :=
  let result := jsGet jsonBody "result"
  if truthyOpt result then .ok (result.getD .null)
  else
    let errorValue := jsGet jsonBody "error"
    if truthyOpt errorValue then .error (.skygear (decodeError errorValue))
    else .error (.skygear (decodeError none))

/-- The body handling of `BaseAPIClient.request` after the exchange: when
`response.json()` rejects, throw "unexpected status code" (carrying the
numeric status) for a status outside [200,300) and "failed to decode
response JSON" otherwise; when it parses, run the envelope decode step. -/
def decodeResponse (r : Response) : Except ReqError JValue :=
  match r.jsonBody with
  | none =>
    if r.status < 200 || r.status ≥ 300 then
      .error (.skygear
        { message := "unexpected status code"
          kind := "InternalError"
          name := "UnexpectedError"
          info := some (.obj [("status_code", .num r.status)]) })
    else
      .error (.skygear
        { message := "failed to decode response JSON"
          kind := "InternalError"
          name := "UnexpectedError"
          info := none })
  | some jsonBody => decodeResponseJSON jsonBody

/-- Modelled from the spec: url.ts is not under src/.  `encodeQuery` turns
query pairs into a URL-encoded query string appended to the path; no claim
inspects the encoding, so percent-escaping of the parts is left as the
identity. -/
def encodeQuery (query : List (String × String)) : String :=
  match query with
  | [] => ""
  | _ => "?" ++ String.intercalate "&" (query.map fun p => p.1 ++ "=" ++ p.2)

/-- `BaseAPIClient.request`: append the encoded query to the path, set
`content-type: application/json` iff a JSON body is present, run `fetch`,
then parse and decode the final response. -/
def requestM (cfg : ClientConfig) (st : MutState) (transport : Transport)
    (method : Method) (path : String) (json : Option JsObj)
    (query : Option (List (String × String))) (autoRefreshToken : Option Bool) :
    Outcome JValue :=
  let p := path ++ (match query with | some q => encodeQuery q | none => "")
  let initHeaders : Headers :=
    if json.isSome then [("content-type", "application/json")] else []
  let f := fetchM cfg st transport method p initHeaders json autoRefreshToken
  match f.result with
  | .error e => ⟨.error e, f.state, f.events⟩
  | .ok response => ⟨decodeResponse response, f.state, f.events⟩

/-- `BaseAPIClient.post` (every modelled call site passes no query). -/
def postM (cfg : ClientConfig) (st : MutState) (transport : Transport)
    (path : String) (json : Option JsObj) (autoRefreshToken : Option Bool) :
    Outcome JValue :=
  requestM cfg st transport .post path json none autoRefreshToken

/-- The number of physical exchanges in an event trace. -/
def exchangeCount (events : List Event) : Nat :=
  (events.filter fun e => match e with | .exchange _ _ _ _ => true | _ => false).length

/-- The number of refresh-capability invocations in an event trace. -/
def refreshCallCount (events : List Event) : Nat :=
  (events.filter fun e => match e with | .refreshCall => true | _ => false).length

/-- The payloads carried by the physical exchanges of an event trace. -/
def exchangeBodies (events : List Event) : List (Option JsObj) :=
  events.filterMap fun e => match e with | .exchange _ _ _ b => some b | _ => none

/-- `makePayloadWithAuthenticationSessionToken`: when an authentication
session is held, spread the payload and add `authn_session_token` with the
session token; otherwise return the payload unchanged. -/
def makePayloadWithAuthenticationSessionToken (st : MutState) (payload : JsObj) : JsObj :=
  match st._authenticationSession with
  | some s => jsObjSet payload "authn_session_token" (some (.str s.token))
  | none => payload

/-- `extractSingleKeyValue`: throw the given message unless the object has
exactly one key; return that key with its value.  JavaScript objects have
no duplicate keys, so indexing the sole key equals taking the sole entry. -/
def extractSingleKeyValue (o : List (String × String)) (errorMessage : String) :
    Except String (String × String) :=
  if h : o.length = 1 then .ok (o.get ⟨0, by omega⟩)
  else .error errorMessage

/-- The `loginIDs.map(extractSingleKeyValue ...)` loop of `addLoginID`: the
first object without exactly one key throws. -/
def extractAllSingle : List (List (String × String)) → Except String (List (String × String))
  | [] => .ok []
  | o :: rest =>
    match extractSingleKeyValue o "must provide exactly one login ID" with
    | .error msg => .error msg
    | .ok kv =>
      match extractAllSingle rest with
      | .error msg => .error msg
      | .ok kvs => .ok (kv :: kvs)

/-- Options of `authenticateWithTOTP` (types.ts is not under src/; the
fields are the ones the call site reads, with `skipMFAForCurrentDevice`
possibly undefined). -/
structure AuthenticateWithTOTPOptions where
  otp : String
  skipMFAForCurrentDevice : Option Bool

/-- Options of `authenticateWithOOB` (types.ts is not under src/). -/
structure AuthenticateWithOOBOptions where
  code : String
  skipMFAForCurrentDevice : Option Bool

/-- Options of `createNewTOTP` (types.ts is not under src/). -/
structure CreateNewTOTPOptions where
  displayName : String
  issuer : String
  accountName : String

/-- Options of `createNewOOB` (types.ts is not under src/; the call site
reads `phone` and `email` through an untyped cast, so either may be
undefined). -/
structure CreateNewOOBOptions where
  channel : String
  phone : Option String
  email : Option String

/-- `authenticateWithRecoveryCode` (the reshaping of the response through
`decodeAuthResponse`, encoding.ts, is not modelled: the claims concern the
outgoing payload). -/
def authenticateWithRecoveryCode (cfg : ClientConfig) (st : MutState)
    (transport : Transport) (code : String) : Outcome JValue :=
  let payload := makePayloadWithAuthenticationSessionToken st [("code", some (.str code))]
  postM cfg st transport "/_auth/mfa/recovery_code/authenticate" (some payload) none

/-- `getAuthenticators` (the per-element `decodeAuthenticator` reshaping,
encoding.ts, is not modelled). -/
def getAuthenticators (cfg : ClientConfig) (st : MutState) (transport : Transport) :
    Outcome (Option JValue) :=
  let payload := makePayloadWithAuthenticationSessionToken st []
  let o := postM cfg st transport "/_auth/mfa/authenticator/list" (some payload) none
  match o.result with
  | .ok v => ⟨.ok (jsGet v "authenticators"), o.state, o.events⟩
  | .error e => ⟨.error e, o.state, o.events⟩

/-- `deleteAuthenticator`: its payload is built directly, without
`makePayloadWithAuthenticationSessionToken`. -/
def deleteAuthenticator (cfg : ClientConfig) (st : MutState) (transport : Transport)
    (id : String) : Outcome JValue :=
  postM cfg st transport "/_auth/mfa/authenticator/delete"
    (some [("authenticator_id", some (.str id))]) none

/-- `createNewTOTP` (the reshaping into `CreateNewTOTPResult` is not
modelled). -/
def createNewTOTP (cfg : ClientConfig) (st : MutState) (transport : Transport)
    (options : CreateNewTOTPOptions) : Outcome JValue :=
  let payload := makePayloadWithAuthenticationSessionToken st
    [("display_name", some (.str options.displayName)),
      ("issuer", some (.str options.issuer)),
      ("account_name", some (.str options.accountName))]
  postM cfg st transport "/_auth/mfa/totp/new" (some payload) none

/-- `activateTOTP` (the reshaping into `ActivateTOTPResult` is not
modelled). -/
def activateTOTP (cfg : ClientConfig) (st : MutState) (transport : Transport)
    (otp : String) : Outcome JValue :=
  let payload := makePayloadWithAuthenticationSessionToken st [("otp", some (.str otp))]
  postM cfg st transport "/_auth/mfa/totp/activate" (some payload) none

/-- `authenticateWithTOTP`. -/
def authenticateWithTOTP (cfg : ClientConfig) (st : MutState) (transport : Transport)
    (options : AuthenticateWithTOTPOptions) : Outcome JValue :=
  let payload := makePayloadWithAuthenticationSessionToken st
    [("request_bearer_token", options.skipMFAForCurrentDevice.map JValue.bool),
      ("otp", some (.str options.otp))]
  postM cfg st transport "/_auth/mfa/totp/authenticate" (some payload) none

/-- `createNewOOB` (the reshaping into `CreateNewOOBResult` is not
modelled). -/
def createNewOOB (cfg : ClientConfig) (st : MutState) (transport : Transport)
    (options : CreateNewOOBOptions) : Outcome JValue :=
  let payload := makePayloadWithAuthenticationSessionToken st
    [("channel", some (.str options.channel)),
      ("phone", options.phone.map JValue.str),
      ("email", options.email.map JValue.str)]
  postM cfg st transport "/_auth/mfa/oob/new" (some payload) none

/-- `activateOOB` (the reshaping into `ActivateOOBResult` is not
modelled). -/
def activateOOB (cfg : ClientConfig) (st : MutState) (transport : Transport)
    (code : String) : Outcome JValue :=
  let payload := makePayloadWithAuthenticationSessionToken st [("code", some (.str code))]
  postM cfg st transport "/_auth/mfa/oob/activate" (some payload) none

/-- `triggerOOB`. -/
def triggerOOB (cfg : ClientConfig) (st : MutState) (transport : Transport)
    (authenticatorID : Option String) : Outcome JValue :=
  let payload := makePayloadWithAuthenticationSessionToken st
    [("authenticator_id", authenticatorID.map JValue.str)]
  postM cfg st transport "/_auth/mfa/oob/trigger" (some payload) none

/-- `authenticateWithOOB`. -/
def authenticateWithOOB (cfg : ClientConfig) (st : MutState) (transport : Transport)
    (options : AuthenticateWithOOBOptions) : Outcome JValue :=
  let payload := makePayloadWithAuthenticationSessionToken st
    [("request_bearer_token", options.skipMFAForCurrentDevice.map JValue.bool),
      ("code", some (.str options.code))]
  postM cfg st transport "/_auth/mfa/oob/authenticate" (some payload) none

/-- `authenticateWithBearerToken`. -/
def authenticateWithBearerToken (cfg : ClientConfig) (st : MutState)
    (transport : Transport) (bearerToken : Option String) : Outcome JValue :=
  let payload := makePayloadWithAuthenticationSessionToken st
    [("bearer_token", bearerToken.map JValue.str)]
  postM cfg st transport "/_auth/mfa/bearer_token/authenticate" (some payload) none

/-- `listRecoveryCode`: its payload is the empty object, built without
`makePayloadWithAuthenticationSessionToken`. -/
def listRecoveryCode (cfg : ClientConfig) (st : MutState) (transport : Transport) :
    Outcome (Option JValue) :=
  let o := postM cfg st transport "/_auth/mfa/recovery_code/list" (some []) none
  match o.result with
  | .ok v => ⟨.ok (jsGet v "recovery_codes"), o.state, o.events⟩
  | .error e => ⟨.error e, o.state, o.events⟩

/-- `regenerateRecoveryCode`: its payload is the empty object, built
without `makePayloadWithAuthenticationSessionToken`. -/
def regenerateRecoveryCode (cfg : ClientConfig) (st : MutState) (transport : Transport) :
    Outcome (Option JValue) :=
  let o := postM cfg st transport "/_auth/mfa/recovery_code/regenerate" (some []) none
  match o.result with
  | .ok v => ⟨.ok (jsGet v "recovery_codes"), o.state, o.events⟩
  | .error e => ⟨.error e, o.state, o.events⟩

/-- `addLoginID`: map every identifier object through
`extractSingleKeyValue` (throwing before any network call on the first
object without exactly one key), then post the mapped key/value pairs. -/
def addLoginID (cfg : ClientConfig) (st : MutState) (transport : Transport)
    (loginIDs : List (List (String × String))) : Outcome JValue :=
  match extractAllSingle loginIDs with
  | .error msg => ⟨.error (.err msg), st, []⟩
  | .ok mapped =>
    postM cfg st transport "/_auth/login_id/add"
      (some [("login_ids", some (.arr (mapped.map fun kv =>
        .obj [("key", .str kv.1), ("value", .str kv.2)])))]) none

/-- `removeLoginID`. -/
def removeLoginID (cfg : ClientConfig) (st : MutState) (transport : Transport)
    (loginID : List (String × String)) : Outcome JValue :=
  match extractSingleKeyValue loginID "must provide exactly one login ID" with
  | .error msg => ⟨.error (.err msg), st, []⟩
  | .ok kv =>
    postM cfg st transport "/_auth/login_id/remove"
      (some [("key", some (.str kv.1)), ("value", some (.str kv.2))]) none

/-- `updateLoginID` (the reshaping through `decodeAuthResponse` is not
modelled). -/
def updateLoginID (cfg : ClientConfig) (st : MutState) (transport : Transport)
    (oldLoginID newLoginID : List (String × String)) : Outcome JValue :=
  match extractSingleKeyValue oldLoginID "must provide exactly one old login ID" with
  | .error msg => ⟨.error (.err msg), st, []⟩
  | .ok oldKV =>
    match extractSingleKeyValue newLoginID "must provide exactly one new login ID" with
    | .error msg => ⟨.error (.err msg), st, []⟩
    | .ok newKV =>
      postM cfg st transport "/_auth/login_id/update"
        (some [("old_login_id", some (.obj [("key", .str oldKV.1), ("value", .str oldKV.2)])),
          ("new_login_id", some (.obj [("key", .str newKV.1), ("value", .str newKV.2)]))]) none

/-- `BaseAPIClient.refresh`: post the refresh token to `/_auth/refresh`
with `autoRefreshToken` explicitly set to false, and read `access_token`
from the result. -/
def refresh (cfg : ClientConfig) (st : MutState) (transport : Transport)
    (refreshToken : String) : Outcome (Option JValue) :=
  let o := postM cfg st transport "/_auth/refresh"
    (some [("refresh_token", some (.str refreshToken))]) (some false)
  match o.result with
  | .ok v => ⟨.ok (jsGet v "access_token"), o.state, o.events⟩
  | .error e => ⟨.error e, o.state, o.events⟩

theorem assocSet_lookup {β : Type} (o : List (String × β)) (k : String) (v : β)
    (k2 : String) :
    List.lookup k2 (assocSet o k v) = if k2 == k then some v else List.lookup k2 o := by
  induction o with
  | nil =>
    by_cases hk : k2 = k
    · simp [assocSet, List.lookup, hk]
    · have hkb : (k2 == k) = false := by simp [hk]
      simp [assocSet, List.lookup, hk, hkb]
  | cons p rest ih =>
    by_cases hp : p.1 = k
    · have hpb : (p.1 == k) = true := by simp [hp]
      by_cases hk : k2 = k
      · have hkb : (k2 == k) = true := by simp [hk]
        simp [assocSet, List.lookup, hpb, hkb, hk]
      · have hkb : (k2 == k) = false := by simp [hk]
        simp [assocSet, List.lookup, hpb, hkb, hk, hp]
    · have hpb : (p.1 == k) = false := by simp [hp]
      by_cases hk2 : k2 = p.1
      · have hk : ¬k2 = k := by rw [hk2]; exact hp
        have hkb : (k2 == k) = false := by simp [hk]
        have hkp : (k2 == p.1) = true := by simp [hk2]
        simp [assocSet, List.lookup, hpb, hkb, hkp, hk]
      · have hkp : (k2 == p.1) = false := by simp [hk2]
        simp [assocSet, List.lookup, hpb, hkp, ih]

/-- When the first response does not signal a stale token, `fetch` performs
exactly one exchange and returns that response with the state unchanged. -/
theorem fetchM_no_stale (cfg : ClientConfig) (st : MutState) (tr : Transport)
    (method : Method) (input : String) (initHeaders : Headers) (body : Option JsObj)
    (autoOpt : Option Bool) (hf : cfg.hasFetchFunction = true)
    (hr : cfg.hasRequestClass = true) (hstale : shouldRefreshToken (tr 0) = false) :
    fetchM cfg st tr method input initHeaders body autoOpt =
      ⟨.ok (tr 0), st,
        [.exchange method (fetchURL cfg input)
          (setAllHeaders initHeaders (prepareHeaders cfg st)) body]⟩ := by
  simp [fetchM, hf, hr, hstale]

/-- When the first response does not signal a stale token, the result of
`request` is the decode of that first response, over one exchange. -/
theorem requestM_no_stale (cfg : ClientConfig) (st : MutState) (tr : Transport)
    (method : Method) (path : String) (json : Option JsObj)
    (query : Option (List (String × String))) (autoOpt : Option Bool)
    (hf : cfg.hasFetchFunction = true) (hr : cfg.hasRequestClass = true)
    (hstale : shouldRefreshToken (tr 0) = false) :
    (requestM cfg st tr method path json query autoOpt).result = decodeResponse (tr 0)
    ∧ exchangeCount (requestM cfg st tr method path json query autoOpt).events = 1
    ∧ (requestM cfg st tr method path json query autoOpt).state = st := by
  have key := fetchM_no_stale cfg st tr method
    (path ++ (match query with | some q => encodeQuery q | none => ""))
    (if json.isSome then [("content-type", "application/json")] else [])
    json autoOpt hf hr hstale
  refine ⟨?_, ?_, ?_⟩ <;> simp [requestM, key, exchangeCount]

/-- Every physical exchange of one `fetch` call carries the payload the
call was given (a retry re-sends the same body). -/
theorem exchangeBodies_fetchM (cfg : ClientConfig) (st : MutState) (tr : Transport)
    (method : Method) (input : String) (initHeaders : Headers) (body : Option JsObj)
    (autoOpt : Option Bool) :
    ∀ b ∈ exchangeBodies (fetchM cfg st tr method input initHeaders body autoOpt).events,
      b = body := by
  intro b hb
  simp only [fetchM] at hb
  split at hb
  · simp [exchangeBodies] at hb
  split at hb
  · simp [exchangeBodies] at hb
  split at hb
  · split at hb
    · simp [exchangeBodies] at hb
      exact hb
    · split at hb
      · simp [exchangeBodies] at hb
        tauto
      · simp [exchangeBodies] at hb
        exact hb
  · simp [exchangeBodies] at hb
    exact hb

/-- Every physical exchange of one `request` call carries the JSON payload
of its descriptor. -/
theorem exchangeBodies_requestM (cfg : ClientConfig) (st : MutState) (tr : Transport)
    (method : Method) (path : String) (json : Option JsObj)
    (query : Option (List (String × String))) (autoOpt : Option Bool) :
    ∀ b ∈ exchangeBodies (requestM cfg st tr method path json query autoOpt).events,
      b = json := by
  intro b hb
  simp only [requestM] at hb
  split at hb <;> exact exchangeBodies_fetchM cfg st tr method _ _ json autoOpt b hb

/-- Every physical exchange of one `post` call carries its JSON payload. -/
theorem exchangeBodies_postM (cfg : ClientConfig) (st : MutState) (tr : Transport)
    (path : String) (json : Option JsObj) (autoOpt : Option Bool) :
    ∀ b ∈ exchangeBodies (postM cfg st tr path json autoOpt).events, b = json := by
  intro b hb
  exact exchangeBodies_requestM cfg st tr .post path json none autoOpt b hb

/-- The reduction of `fetch` on the refresh-and-retry path: stale first
response, auto-refresh enabled, refresh capability configured and
succeeding. -/
theorem fetchM_retry_eq (cfg : ClientConfig) (st st2 : MutState) (tr : Transport)
    (method : Method) (input : String) (initHeaders : Headers) (body : Option JsObj)
    (autoOpt : Option Bool) (f : MutState → MutState × Bool)
    (hf : cfg.hasFetchFunction = true) (hr : cfg.hasRequestClass = true)
    (hrf : cfg.refreshTokenFunction = some f)
    (hstale : shouldRefreshToken (tr 0) = true)
    (hauto : autoOpt.getD true = true) (hfst : f st = (st2, true)) :
    fetchM cfg st tr method input initHeaders body autoOpt =
      ⟨.ok (tr 1), st2,
        [.exchange method (fetchURL cfg input)
          (setAllHeaders initHeaders (prepareHeaders cfg st)) body,
        .refreshCall,
        .exchange method (fetchURL cfg input)
          (setAllHeaders (setAllHeaders initHeaders (prepareHeaders cfg st))
            (prepareHeaders cfg st2)) body]⟩ := by
  simp [fetchM, hf, hr, hrf, hstale, hauto, hfst]

/-- The reduction of `fetch` when the refresh capability is invoked but
resolves to false: no retry, the first response is returned. -/
theorem fetchM_refresh_failed_eq (cfg : ClientConfig) (st st2 : MutState)
    (tr : Transport) (method : Method) (input : String) (initHeaders : Headers)
    (body : Option JsObj) (autoOpt : Option Bool) (f : MutState → MutState × Bool)
    (hf : cfg.hasFetchFunction = true) (hr : cfg.hasRequestClass = true)
    (hrf : cfg.refreshTokenFunction = some f)
    (hstale : shouldRefreshToken (tr 0) = true)
    (hauto : autoOpt.getD true = true) (hfst : f st = (st2, false)) :
    fetchM cfg st tr method input initHeaders body autoOpt =
      ⟨.ok (tr 0), st2,
        [.exchange method (fetchURL cfg input)
          (setAllHeaders initHeaders (prepareHeaders cfg st)) body,
        .refreshCall]⟩ := by
  simp [fetchM, hf, hr, hrf, hstale, hauto, hfst]

/-- After setting freshly prepared headers on top of any base headers, the
authorization header carries the bearer token of the state the headers
were prepared from, whenever that state holds a truthy access token. -/
theorem getHeader_setAll_prepare (cfg : ClientConfig) (base : Headers) (st : MutState)
    (t : String) (hAT : st._accessToken = some t) (ht : t ≠ "") :
    getHeader (setAllHeaders base (prepareHeaders cfg st)) "authorization"
      = some ("bearer " ++ t) := by
  have htb : (t != "") = true := by simpa using ht
  rcases hua : cfg.userAgent with _ | ua <;>
    rcases hei : cfg.getExtraSessionInfo with _ | (_ | enc) <;>
      simp [prepareHeaders, hAT, htb, hua, hei, setAllHeaders, setHeader,
        getHeader, assocSet_lookup]

/-- Appending distinct strings to "bearer " gives distinct header values. -/
theorem bearer_append_inj (t u : String) (h : "bearer " ++ t = "bearer " ++ u) :
    t = u := by
  have h2 := congrArg String.data h
  rw [String.data_append, String.data_append] at h2
  have h3 := List.append_cancel_left h2
  cases t
  cases u
  simp_all

/-- C1: every logical call through `fetch` performs at most two physical
exchanges; and when the first response carries the stale-token header
"true", auto-refresh is enabled and the configured refresh capability
resolves to true, exactly one additional exchange is issued and the
retried response is returned as is — the conclusion holds for every
transport, whatever the stale-token header of the second response, so that
header is never consulted and no third exchange occurs. -/
theorem fetch_retries_at_most_once (cfg : ClientConfig) (st st2 : MutState)
    (transport : Transport) (method : Method) (input : String)
    (initHeaders : Headers) (body : Option JsObj) (autoOpt : Option Bool)
    (f : MutState → MutState × Bool) :
    exchangeCount (fetchM cfg st transport method input initHeaders body autoOpt).events ≤ 2
    ∧ (cfg.hasFetchFunction = true → cfg.hasRequestClass = true →
      cfg.refreshTokenFunction = some f →
      shouldRefreshToken (transport 0) = true →
      autoOpt.getD true = true →
      f st = (st2, true) →
      fetchM cfg st transport method input initHeaders body autoOpt =
        ⟨.ok (transport 1), st2,
          [.exchange method (fetchURL cfg input)
            (setAllHeaders initHeaders (prepareHeaders cfg st)) body,
          .refreshCall,
          .exchange method (fetchURL cfg input)
            (setAllHeaders (setAllHeaders initHeaders (prepareHeaders cfg st))
              (prepareHeaders cfg st2)) body]⟩) := by
  constructor
  · simp only [fetchM]
    split
    · simp [exchangeCount]
    split
    · simp [exchangeCount]
    split
    · split
      · simp [exchangeCount]
      · split
        · simp [exchangeCount]
        · simp [exchangeCount]
    · simp [exchangeCount]
  · intro hf hr hrf hstale hauto hfst
    exact fetchM_retry_eq cfg st st2 transport method input initHeaders body
      autoOpt f hf hr hrf hstale hauto hfst

/-- A refresh capability that succeeds after writing a fresh access
token. -/
def refreshFnW : MutState → MutState × Bool :=
  fun m => ({ m with _accessToken := some "tok2" }, true)

/-- A refresh capability that fails without touching the state. -/
def refreshFnFailW : MutState → MutState × Bool :=
  fun m => (m, false)

/-- A client configuration with a succeeding refresh capability. -/
def cfgRetryW : ClientConfig :=
  { apiKey := "api-key"
    endpoint := "https://demo.skygear.io"
    hasFetchFunction := true
    hasRequestClass := true
    refreshTokenFunction := some refreshFnW
    userAgent := none
    getExtraSessionInfo := none }

/-- A client configuration with a failing refresh capability. -/
def cfgRefreshFailW : ClientConfig :=
  { cfgRetryW with refreshTokenFunction := some refreshFnFailW }

/-- A client state holding the pre-refresh access token. -/
def stW : MutState :=
  { _accessToken := some "tok1", _authenticationSession := none }

/-- A response signalling a stale access token. -/
def respStaleW : Response :=
  { tryRefreshHeader := some "true"
    status := 401
    jsonBody := some (.obj [("error", .obj [("message", .str "stale token")])]) }

/-- A successful response that still carries the stale-token header, to
exhibit that the header of a retried response is ignored. -/
def respOkStaleHeaderW : Response :=
  { tryRefreshHeader := some "true"
    status := 200
    jsonBody := some (.obj [("result", .bool true)]) }

/-- A transport answering the first exchange with the stale-token signal
and every later exchange with a success that again carries the stale
header. -/
def transportRetryW : Transport :=
  fun n => if n = 0 then respStaleW else respOkStaleHeaderW

/-- Witness for C1: a concrete stale-then-ok transport where the retried
response itself carries the stale header, yet the call stops after the
second exchange and returns it. -/
theorem fetch_retries_at_most_once_witness :
    shouldRefreshToken (transportRetryW 0) = true
    ∧ refreshFnW stW = (⟨some "tok2", none⟩, true)
    ∧ fetchM cfgRetryW stW transportRetryW .post "/_auth/me" [] (some []) none =
        ⟨.ok (transportRetryW 1), ⟨some "tok2", none⟩,
          [.exchange .post (fetchURL cfgRetryW "/_auth/me")
            (setAllHeaders [] (prepareHeaders cfgRetryW stW)) (some []),
          .refreshCall,
          .exchange .post (fetchURL cfgRetryW "/_auth/me")
            (setAllHeaders (setAllHeaders [] (prepareHeaders cfgRetryW stW))
              (prepareHeaders cfgRetryW ⟨some "tok2", none⟩)) (some [])]⟩ :=
  ⟨rfl, rfl,
    (fetch_retries_at_most_once cfgRetryW stW ⟨some "tok2", none⟩ transportRetryW
      .post "/_auth/me" [] (some []) none refreshFnW).2 rfl rfl rfl rfl rfl rfl⟩

/-- C2: on the refresh-and-retry path, the retried exchange carries
headers recomputed by `prepareHeaders` from the post-refresh state; its
authorization header is the bearer form of the access token written by the
refresh callback, and never the distinct token read before the refresh. -/
theorem fetch_retry_uses_post_refresh_token (cfg : ClientConfig) (st st2 : MutState)
    (transport : Transport) (method : Method) (input : String)
    (initHeaders : Headers) (body : Option JsObj) (autoOpt : Option Bool)
    (f : MutState → MutState × Bool) (t : String) :
    cfg.hasFetchFunction = true → cfg.hasRequestClass = true →
    cfg.refreshTokenFunction = some f →
    shouldRefreshToken (transport 0) = true →
    autoOpt.getD true = true →
    f st = (st2, true) →
    st2._accessToken = some t → t ≠ "" →
    (fetchM cfg st transport method input initHeaders body autoOpt).events =
      [.exchange method (fetchURL cfg input)
        (setAllHeaders initHeaders (prepareHeaders cfg st)) body,
      .refreshCall,
      .exchange method (fetchURL cfg input)
        (setAllHeaders (setAllHeaders initHeaders (prepareHeaders cfg st))
          (prepareHeaders cfg st2)) body]
    ∧ getHeader (setAllHeaders (setAllHeaders initHeaders (prepareHeaders cfg st))
        (prepareHeaders cfg st2)) "authorization" = some ("bearer " ++ t)
    ∧ (∀ t0, st._accessToken = some t0 → t0 ≠ t →
      getHeader (setAllHeaders (setAllHeaders initHeaders (prepareHeaders cfg st))
        (prepareHeaders cfg st2)) "authorization" ≠ some ("bearer " ++ t0)) := by
  intro hf hr hrf hstale hauto hfst hAT ht
  have hev := fetchM_retry_eq cfg st st2 transport method input initHeaders body
    autoOpt f hf hr hrf hstale hauto hfst
  have hget := getHeader_setAll_prepare cfg
    (setAllHeaders initHeaders (prepareHeaders cfg st)) st2 t hAT ht
  refine ⟨by rw [hev], hget, ?_⟩
  intro t0 _ hne heq
  rw [hget] at heq
  exact hne ((bearer_append_inj t t0 (Option.some_injective _ heq)).symm)

/-- Witness for C2: with the concrete refresh callback writing "tok2" over
"tok1", the retried exchange's authorization header reads "bearer tok2"
and differs from "bearer tok1". -/
theorem fetch_retry_uses_post_refresh_token_witness :
    refreshFnW stW = (⟨some "tok2", none⟩, true)
    ∧ (fetchM cfgRetryW stW transportRetryW .post "/_auth/me" [] (some []) none).events =
        [.exchange .post (fetchURL cfgRetryW "/_auth/me")
          (setAllHeaders [] (prepareHeaders cfgRetryW stW)) (some []),
        .refreshCall,
        .exchange .post (fetchURL cfgRetryW "/_auth/me")
          (setAllHeaders (setAllHeaders [] (prepareHeaders cfgRetryW stW))
            (prepareHeaders cfgRetryW ⟨some "tok2", none⟩)) (some [])]
    ∧ getHeader (setAllHeaders (setAllHeaders [] (prepareHeaders cfgRetryW stW))
        (prepareHeaders cfgRetryW ⟨some "tok2", none⟩)) "authorization"
        = some ("bearer " ++ "tok2")
    ∧ getHeader (setAllHeaders (setAllHeaders [] (prepareHeaders cfgRetryW stW))
        (prepareHeaders cfgRetryW ⟨some "tok2", none⟩)) "authorization"
        ≠ some ("bearer " ++ "tok1") := by
  have h := fetch_retry_uses_post_refresh_token cfgRetryW stW ⟨some "tok2", none⟩
    transportRetryW .post "/_auth/me" [] (some []) none refreshFnW "tok2"
    rfl rfl rfl rfl rfl rfl rfl (by decide)
  exact ⟨rfl, h.1, h.2.1, h.2.2 "tok1" rfl (by decide)⟩

/-- C7: when the first response is stale, auto-refresh is enabled and the
refresh capability resolves to false, `fetch` issues no second exchange
and returns the first response, whose decode outcome is what `request`
hands the caller. -/
theorem fetch_no_retry_on_refresh_failure (cfg : ClientConfig) (st st2 : MutState)
    (transport : Transport) (method : Method) (input : String)
    (initHeaders : Headers) (body : Option JsObj) (path : String)
    (json : Option JsObj) (query : Option (List (String × String)))
    (autoOpt : Option Bool) (f : MutState → MutState × Bool) :
    cfg.hasFetchFunction = true → cfg.hasRequestClass = true →
    cfg.refreshTokenFunction = some f →
    shouldRefreshToken (transport 0) = true →
    autoOpt.getD true = true →
    f st = (st2, false) →
    fetchM cfg st transport method input initHeaders body autoOpt =
      ⟨.ok (transport 0), st2,
        [.exchange method (fetchURL cfg input)
          (setAllHeaders initHeaders (prepareHeaders cfg st)) body,
        .refreshCall]⟩
    ∧ (requestM cfg st transport method path json query autoOpt).result
        = decodeResponse (transport 0)
    ∧ exchangeCount (requestM cfg st transport method path json query autoOpt).events = 1 := by
  intro hf hr hrf hstale hauto hfst
  have key : ∀ (inp : String) (ih0 : Headers) (bd : Option JsObj),
      fetchM cfg st transport method inp ih0 bd autoOpt =
        ⟨.ok (transport 0), st2,
          [.exchange method (fetchURL cfg inp) (setAllHeaders ih0 (prepareHeaders cfg st)) bd,
          .refreshCall]⟩ :=
    fun inp ih0 bd => fetchM_refresh_failed_eq cfg st st2 transport method inp ih0 bd
      autoOpt f hf hr hrf hstale hauto hfst
  refine ⟨key input initHeaders body, ?_, ?_⟩
  · simp [requestM, key]
  · simp [requestM, key, exchangeCount]

/-- Witness for C7: with the failing refresh callback, the call ends after
one exchange and the decoded first response is returned. -/
theorem fetch_no_retry_on_refresh_failure_witness :
    refreshFnFailW stW = (stW, false)
    ∧ fetchM cfgRefreshFailW stW transportRetryW .post "/_auth/me" [] (some []) none =
        ⟨.ok (transportRetryW 0), stW,
          [.exchange .post (fetchURL cfgRefreshFailW "/_auth/me")
            (setAllHeaders [] (prepareHeaders cfgRefreshFailW stW)) (some []),
          .refreshCall]⟩
    ∧ (requestM cfgRefreshFailW stW transportRetryW .post "/_auth/me" (some []) none none).result
        = decodeResponse (transportRetryW 0)
    ∧ exchangeCount (requestM cfgRefreshFailW stW transportRetryW .post "/_auth/me"
        (some []) none none).events = 1 := by
  have h := fetch_no_retry_on_refresh_failure cfgRefreshFailW stW stW transportRetryW
    .post "/_auth/me" [] (some []) "/_auth/me" (some []) none none refreshFnFailW
    rfl rfl rfl rfl rfl rfl
  exact ⟨rfl, h.1, h.2.1, h.2.2⟩

/-- C10: `refresh` posts with auto-refresh explicitly disabled, so a
refresh call never invokes the refresh capability, performs at most one
physical exchange whatever the stale-token header of the response and
whatever refresh capability is configured, and leaves the client state
untouched. -/
theorem refresh_never_recurses (cfg : ClientConfig) (st : MutState) (tr : Transport)
    (rt : String) :
    refreshCallCount (refresh cfg st tr rt).events = 0
    ∧ exchangeCount (refresh cfg st tr rt).events ≤ 1
    ∧ (refresh cfg st tr rt).state = st := by
  by_cases hf : cfg.hasFetchFunction
  · by_cases hr : cfg.hasRequestClass
    · have key : fetchM cfg st tr .post "/_auth/refresh"
          [("content-type", "application/json")]
          (some [("refresh_token", some (.str rt))]) (some false) =
          ⟨.ok (tr 0), st,
            [.exchange .post (fetchURL cfg "/_auth/refresh")
              (setAllHeaders [("content-type", "application/json")] (prepareHeaders cfg st))
              (some [("refresh_token", some (.str rt))])]⟩ := by
        simp [fetchM, hf, hr]
      unfold refresh postM requestM
      rcases hd : decodeResponse (tr 0) with e | v <;>
        split <;> simp_all [encodeQuery, refreshCallCount, exchangeCount]
    · unfold refresh postM requestM fetchM
      simp [hf, hr, refreshCallCount, exchangeCount]
  · unfold refresh postM requestM fetchM
    simp [hf, refreshCallCount, exchangeCount]

/-- Every payload sent by the events carries the field
`authn_session_token` with the given token value. -/
def bodiesThreadToken (events : List Event) (tok : String) : Prop :=
  ∀ b ∈ exchangeBodies events,
    ∃ p, b = some p ∧ definedGet p "authn_session_token" = some (.str tok)

/-- Every payload sent by the events lacks the key `authn_session_token`
entirely. -/
def bodiesOmitToken (events : List Event) : Prop :=
  ∀ b ∈ exchangeBodies events,
    ∃ p, b = some p ∧ List.lookup "authn_session_token" p = none

/-- A post whose payload went through the session-token merge threads the
token whenever a session is held. -/
theorem bodiesThread_of_postM (cfg : ClientConfig) (st : MutState) (tr : Transport)
    (path : String) (base : JsObj) (autoOpt : Option Bool)
    (sess : AuthenticationSession) (hs : st._authenticationSession = some sess) :
    bodiesThreadToken
      (postM cfg st tr path (some (makePayloadWithAuthenticationSessionToken st base))
        autoOpt).events sess.token := by
  intro b hb
  have hbe := exchangeBodies_postM cfg st tr path
    (some (makePayloadWithAuthenticationSessionToken st base)) autoOpt b hb
  refine ⟨makePayloadWithAuthenticationSessionToken st base, hbe, ?_⟩
  simp [makePayloadWithAuthenticationSessionToken, hs, definedGet, jsObjSet,
    assocSet_lookup]

/-- A post whose payload lacks the session-token key sends it absent. -/
theorem bodiesOmit_of_postM (cfg : ClientConfig) (st : MutState) (tr : Transport)
    (path : String) (p : JsObj) (autoOpt : Option Bool)
    (hnone : List.lookup "authn_session_token" p = none) :
    bodiesOmitToken (postM cfg st tr path (some p) autoOpt).events := by
  intro b hb
  exact ⟨p, exchangeBodies_postM cfg st tr path (some p) autoOpt b hb, hnone⟩

/-- The events of `getAuthenticators` are those of its post. -/
theorem getAuthenticators_events (cfg : ClientConfig) (st : MutState) (tr : Transport) :
    (getAuthenticators cfg st tr).events =
      (postM cfg st tr "/_auth/mfa/authenticator/list"
        (some (makePayloadWithAuthenticationSessionToken st [])) none).events := by
  unfold getAuthenticators
  rcases h : (postM cfg st tr "/_auth/mfa/authenticator/list"
      (some (makePayloadWithAuthenticationSessionToken st [])) none).result with e | v <;>
    simp [h]

/-- The events of `listRecoveryCode` are those of its post. -/
theorem listRecoveryCode_events (cfg : ClientConfig) (st : MutState) (tr : Transport) :
    (listRecoveryCode cfg st tr).events =
      (postM cfg st tr "/_auth/mfa/recovery_code/list" (some []) none).events := by
  unfold listRecoveryCode
  rcases h : (postM cfg st tr "/_auth/mfa/recovery_code/list" (some []) none).result
      with e | v <;>
    simp [h]

/-- The events of `regenerateRecoveryCode` are those of its post. -/
theorem regenerateRecoveryCode_events (cfg : ClientConfig) (st : MutState) (tr : Transport) :
    (regenerateRecoveryCode cfg st tr).events =
      (postM cfg st tr "/_auth/mfa/recovery_code/regenerate" (some []) none).events := by
  unfold regenerateRecoveryCode
  rcases h : (postM cfg st tr "/_auth/mfa/recovery_code/regenerate" (some []) none).result
      with e | v <;>
    simp [h]

/-- C3: every MFA-step operation (TOTP activate and authenticate, OOB
trigger, activate and authenticate, recovery-code authenticate,
bearer-token authenticate) includes `authn_session_token` equal to the
held session token in its outgoing payload when a session is held, and
omits the key entirely when none is held. -/
theorem mfa_steps_thread_session_token (cfg : ClientConfig) (st : MutState)
    (tr : Transport) (sess : AuthenticationSession)
    (totpOpts : AuthenticateWithTOTPOptions) (oobOpts : AuthenticateWithOOBOptions)
    (otp code rcode : String) (authenticatorID bearerToken : Option String) :
    (st._authenticationSession = some sess →
      bodiesThreadToken (activateTOTP cfg st tr otp).events sess.token
      ∧ bodiesThreadToken (authenticateWithTOTP cfg st tr totpOpts).events sess.token
      ∧ bodiesThreadToken (triggerOOB cfg st tr authenticatorID).events sess.token
      ∧ bodiesThreadToken (activateOOB cfg st tr code).events sess.token
      ∧ bodiesThreadToken (authenticateWithOOB cfg st tr oobOpts).events sess.token
      ∧ bodiesThreadToken (authenticateWithRecoveryCode cfg st tr rcode).events sess.token
      ∧ bodiesThreadToken (authenticateWithBearerToken cfg st tr bearerToken).events sess.token)
    ∧ (st._authenticationSession = none →
      bodiesOmitToken (activateTOTP cfg st tr otp).events
      ∧ bodiesOmitToken (authenticateWithTOTP cfg st tr totpOpts).events
      ∧ bodiesOmitToken (triggerOOB cfg st tr authenticatorID).events
      ∧ bodiesOmitToken (activateOOB cfg st tr code).events
      ∧ bodiesOmitToken (authenticateWithOOB cfg st tr oobOpts).events
      ∧ bodiesOmitToken (authenticateWithRecoveryCode cfg st tr rcode).events
      ∧ bodiesOmitToken (authenticateWithBearerToken cfg st tr bearerToken).events) := by
  constructor
  · intro hs
    exact ⟨bodiesThread_of_postM cfg st tr _ _ _ sess hs,
      bodiesThread_of_postM cfg st tr _ _ _ sess hs,
      bodiesThread_of_postM cfg st tr _ _ _ sess hs,
      bodiesThread_of_postM cfg st tr _ _ _ sess hs,
      bodiesThread_of_postM cfg st tr _ _ _ sess hs,
      bodiesThread_of_postM cfg st tr _ _ _ sess hs,
      bodiesThread_of_postM cfg st tr _ _ _ sess hs⟩
  · intro hs
    refine ⟨?_, ?_, ?_, ?_, ?_, ?_, ?_⟩ <;>
      · simp only [activateTOTP, authenticateWithTOTP, triggerOOB, activateOOB,
          authenticateWithOOB, authenticateWithRecoveryCode, authenticateWithBearerToken,
          makePayloadWithAuthenticationSessionToken, hs]
        exact bodiesOmit_of_postM cfg st tr _ _ _ (by simp [List.lookup])

/-- A client state holding a pending authentication session. -/
def stSess : MutState :=
  { _accessToken := none, _authenticationSession := some ⟨"sess1"⟩ }

/-- A plain successful response without the stale-token header. -/
def respOkW : Response :=
  { tryRefreshHeader := none
    status := 200
    jsonBody := some (.obj [("result", .bool true)]) }

/-- A transport answering every exchange with the plain success. -/
def transportOkW : Transport := fun _ => respOkW

/-- Witness for C3: with the session "sess1" held, the TOTP authenticate
payload carries the token; with no session held, it lacks the key. -/
theorem mfa_steps_thread_session_token_witness :
    stSess._authenticationSession = some ⟨"sess1"⟩
    ∧ bodiesThreadToken
        (authenticateWithTOTP cfgRetryW stSess transportOkW ⟨"123456", none⟩).events "sess1"
    ∧ stW._authenticationSession = none
    ∧ bodiesOmitToken
        (authenticateWithTOTP cfgRetryW stW transportOkW ⟨"123456", none⟩).events := by
  refine ⟨rfl, ?_, rfl, ?_⟩
  · exact ((mfa_steps_thread_session_token cfgRetryW stSess transportOkW ⟨"sess1"⟩
      ⟨"123456", none⟩ ⟨"000000", none⟩ "1" "2" "3" none none).1 rfl).2.1
  · exact ((mfa_steps_thread_session_token cfgRetryW stW transportOkW ⟨"sess1"⟩
      ⟨"123456", none⟩ ⟨"000000", none⟩ "1" "2" "3" none none).2 rfl).2.1

/-- C6 counterexample: with the session "sess1" held, `deleteAuthenticator`
sends a payload without any `authn_session_token` field, so the claim that
every enrollment and management operation merges the held token is false
at this input. -/
theorem deleteAuthenticator_ignores_session_cx :
    stSess._authenticationSession = some ⟨"sess1"⟩
    ∧ exchangeBodies (deleteAuthenticator cfgRetryW stSess transportOkW "auth-1").events
        = [some [("authenticator_id", some (.str "auth-1"))]]
    ∧ List.lookup "authn_session_token"
        [("authenticator_id", some (JValue.str "auth-1"))] = none := by
  refine ⟨rfl, ?_, rfl⟩
  have key := fetchM_no_stale cfgRetryW stSess transportOkW .post
    "/_auth/mfa/authenticator/delete"
    [("content-type", "application/json")]
    (some [("authenticator_id", some (.str "auth-1"))]) none
    rfl rfl rfl
  simp [deleteAuthenticator, postM, requestM, key, exchangeBodies, encodeQuery]

/-- C6 amended: of the enrollment and management operations, create-new-
TOTP, create-new-OOB, activate-TOTP, activate-OOB and list-authenticator
merge the held session token into their payload, while delete
authenticator, recovery-code list and recovery-code regenerate send fixed
payloads that never contain the session-token key. -/
theorem enrollment_threading_amended (cfg : ClientConfig) (st : MutState)
    (tr : Transport) (sess : AuthenticationSession)
    (totpOpts : CreateNewTOTPOptions) (oobOpts : CreateNewOOBOptions)
    (otp code id : String) :
    (st._authenticationSession = some sess →
      bodiesThreadToken (createNewTOTP cfg st tr totpOpts).events sess.token
      ∧ bodiesThreadToken (createNewOOB cfg st tr oobOpts).events sess.token
      ∧ bodiesThreadToken (activateTOTP cfg st tr otp).events sess.token
      ∧ bodiesThreadToken (activateOOB cfg st tr code).events sess.token
      ∧ bodiesThreadToken (getAuthenticators cfg st tr).events sess.token)
    ∧ bodiesOmitToken (deleteAuthenticator cfg st tr id).events
    ∧ bodiesOmitToken (listRecoveryCode cfg st tr).events
    ∧ bodiesOmitToken (regenerateRecoveryCode cfg st tr).events := by
  refine ⟨?_, ?_, ?_, ?_⟩
  · intro hs
    refine ⟨bodiesThread_of_postM cfg st tr _ _ _ sess hs,
      bodiesThread_of_postM cfg st tr _ _ _ sess hs,
      bodiesThread_of_postM cfg st tr _ _ _ sess hs,
      bodiesThread_of_postM cfg st tr _ _ _ sess hs, ?_⟩
    rw [bodiesThreadToken, getAuthenticators_events]
    exact bodiesThread_of_postM cfg st tr _ _ _ sess hs
  · exact bodiesOmit_of_postM cfg st tr _ _ _ (by simp [List.lookup])
  · rw [bodiesOmitToken, listRecoveryCode_events]
    exact bodiesOmit_of_postM cfg st tr _ _ _ (by simp [List.lookup])
  · rw [bodiesOmitToken, regenerateRecoveryCode_events]
    exact bodiesOmit_of_postM cfg st tr _ _ _ (by simp [List.lookup])

/-- Witness for the amended C6 at the session "sess1": create-new-TOTP
threads the token and delete authenticator omits it. -/
theorem enrollment_threading_amended_witness :
    stSess._authenticationSession = some ⟨"sess1"⟩
    ∧ bodiesThreadToken
        (createNewTOTP cfgRetryW stSess transportOkW ⟨"d", "i", "a"⟩).events "sess1"
    ∧ bodiesOmitToken (deleteAuthenticator cfgRetryW stSess transportOkW "auth-1").events := by
  have h := enrollment_threading_amended cfgRetryW stSess transportOkW ⟨"sess1"⟩
    ⟨"d", "i", "a"⟩ ⟨"sms", none, none⟩ "1" "2" "auth-1"
  exact ⟨rfl, (h.1 rfl).1, h.2.1⟩

/-- C4: the envelope decode step returns the exact value under `result`
when truthy; otherwise fails with the structured error decoded from a
truthy `error`; otherwise fails with the generic malformed-envelope
error.  The HTTP status is never consulted in this step: the decode of a
parsed body is invariant under the status, and on a no-retry call
`request` hands exactly this decode to the caller. -/
theorem request_decode_envelope (cfg : ClientConfig) (st : MutState) (tr : Transport)
    (method : Method) (path : String) (json : Option JsObj)
    (query : Option (List (String × String))) (autoOpt : Option Bool)
    (fields : List (String × JValue)) (hdr hdr2 : Option String) (status status2 : Int) :
    (∀ v, jsGet (.obj fields) "result" = some v → truthy v = true →
      decodeResponseJSON (.obj fields) = .ok v)
    ∧ (truthyOpt (jsGet (.obj fields) "result") = false →
      ∀ e, jsGet (.obj fields) "error" = some e → truthy e = true →
      decodeResponseJSON (.obj fields) = .error (.skygear (decodeError (some e))))
    ∧ (truthyOpt (jsGet (.obj fields) "result") = false →
      truthyOpt (jsGet (.obj fields) "error") = false →
      decodeResponseJSON (.obj fields) = .error (.skygear (decodeError none)))
    ∧ decodeResponse ⟨hdr, status, some (.obj fields)⟩
        = decodeResponse ⟨hdr2, status2, some (.obj fields)⟩
    ∧ (cfg.hasFetchFunction = true → cfg.hasRequestClass = true →
      shouldRefreshToken (tr 0) = false → (tr 0).jsonBody = some (.obj fields) →
      (requestM cfg st tr method path json query autoOpt).result
        = decodeResponseJSON (.obj fields)) := by
  refine ⟨?_, ?_, ?_, rfl, ?_⟩
  · intro v hv htv
    simp [decodeResponseJSON, hv, truthyOpt, htv]
  · intro hres e he hte
    simp only [truthyOpt] at hres
    simp [decodeResponseJSON, truthyOpt, hres, he, hte]
  · intro hres herr
    simp [decodeResponseJSON, hres, herr]
  · intro hf hr hstale hbody
    have hres := (requestM_no_stale cfg st tr method path json query autoOpt hf hr hstale).1
    rw [hres]
    simp [decodeResponse, hbody]

/-- Witness for C4: an envelope carrying the truthy result 7 decodes to
exactly that value. -/
theorem request_decode_envelope_witness :
    jsGet (.obj [("result", .num 7)]) "result" = some (.num 7)
    ∧ truthy (.num 7) = true
    ∧ decodeResponseJSON (.obj [("result", .num 7)]) = .ok (.num 7) := by
  refine ⟨rfl, by decide, ?_⟩
  exact (request_decode_envelope cfgRetryW stW transportOkW .post "/_auth/me" none none
    none [("result", .num 7)] none none 200 404).1 (.num 7) rfl (by decide)

/-- A transport whose response has no parseable JSON body and status
404. -/
def transport404W : Transport :=
  fun _ => { tryRefreshHeader := none, status := 404, jsonBody := none }

/-- A transport whose response has no parseable JSON body and status
200. -/
def transport200BadW : Transport :=
  fun _ => { tryRefreshHeader := none, status := 200, jsonBody := none }

/-- C5: when the final response body fails to parse as JSON, `request`
fails with the "unexpected status code" error carrying the numeric status
when the status is outside [200,300), with the "failed to decode response
JSON" error when it is inside, and in either case the result is an error,
never a value. -/
theorem request_parse_failure_errors (cfg : ClientConfig) (st : MutState)
    (tr : Transport) (method : Method) (path : String) (json : Option JsObj)
    (query : Option (List (String × String))) (autoOpt : Option Bool)
    (hf : cfg.hasFetchFunction = true) (hr : cfg.hasRequestClass = true)
    (hstale : shouldRefreshToken (tr 0) = false) (hbody : (tr 0).jsonBody = none) :
    ((tr 0).status < 200 ∨ (tr 0).status ≥ 300 →
      (requestM cfg st tr method path json query autoOpt).result
        = .error (.skygear
          { message := "unexpected status code"
            kind := "InternalError"
            name := "UnexpectedError"
            info := some (.obj [("status_code", .num (tr 0).status)]) }))
    ∧ (200 ≤ (tr 0).status → (tr 0).status < 300 →
      (requestM cfg st tr method path json query autoOpt).result
        = .error (.skygear
          { message := "failed to decode response JSON"
            kind := "InternalError"
            name := "UnexpectedError"
            info := none }))
    ∧ (∃ e, (requestM cfg st tr method path json query autoOpt).result = .error e)
    ∧ (∀ r : Response, r.jsonBody = none → r.status < 200 ∨ r.status ≥ 300 →
      decodeResponse r = .error (.skygear
        { message := "unexpected status code"
          kind := "InternalError"
          name := "UnexpectedError"
          info := some (.obj [("status_code", .num r.status)]) }))
    ∧ (∀ r : Response, r.jsonBody = none → 200 ≤ r.status → r.status < 300 →
      decodeResponse r = .error (.skygear
        { message := "failed to decode response JSON"
          kind := "InternalError"
          name := "UnexpectedError"
          info := none })) := by
  have hres := (requestM_no_stale cfg st tr method path json query autoOpt hf hr hstale).1
  have hout : (tr 0).status < 200 ∨ (tr 0).status ≥ 300 →
      (requestM cfg st tr method path json query autoOpt).result
        = .error (.skygear
          { message := "unexpected status code"
            kind := "InternalError"
            name := "UnexpectedError"
            info := some (.obj [("status_code", .num (tr 0).status)]) }) := by
    intro h
    rcases h with h | h <;> simp [hres, decodeResponse, hbody, h]
  have hin : 200 ≤ (tr 0).status → (tr 0).status < 300 →
      (requestM cfg st tr method path json query autoOpt).result
        = .error (.skygear
          { message := "failed to decode response JSON"
            kind := "InternalError"
            name := "UnexpectedError"
            info := none }) := by
    intro h1 h2
    have hn1 : ¬((tr 0).status < 200) := by omega
    have hn2 : ¬((tr 0).status ≥ 300) := by omega
    simp [hres, decodeResponse, hbody, hn1, hn2]
  refine ⟨hout, hin, ?_, ?_, ?_⟩
  · by_cases hc : (tr 0).status < 200 ∨ (tr 0).status ≥ 300
    · exact ⟨_, hout hc⟩
    · push_neg at hc
      exact ⟨_, hin (by omega) (by omega)⟩
  · intro r hrb hrs
    rcases hrs with h | h <;> simp [decodeResponse, hrb, h]
  · intro r hrb h1 h2
    have hn1 : ¬(r.status < 200) := by omega
    have hn2 : ¬(r.status ≥ 300) := by omega
    simp [decodeResponse, hrb, hn1, hn2]

/-- Witness for C5: a 404 response without JSON body yields the
unexpected-status-code error carrying 404, and a 200 response without
JSON body yields the failed-to-decode error. -/
theorem request_parse_failure_errors_witness :
    (transport404W 0).jsonBody = none
    ∧ ((transport404W 0).status < 200 ∨ (transport404W 0).status ≥ 300)
    ∧ (requestM cfgRetryW stW transport404W .post "/_auth/me" (some []) none none).result
        = .error (.skygear
          { message := "unexpected status code"
            kind := "InternalError"
            name := "UnexpectedError"
            info := some (.obj [("status_code", .num (transport404W 0).status)]) })
    ∧ (requestM cfgRetryW stW transport200BadW .post "/_auth/me" (some []) none none).result
        = .error (.skygear
          { message := "failed to decode response JSON"
            kind := "InternalError"
            name := "UnexpectedError"
            info := none }) := by
  refine ⟨rfl, Or.inr (by decide), ?_, ?_⟩
  · exact (request_parse_failure_errors cfgRetryW stW transport404W .post "/_auth/me"
      (some []) none none rfl rfl rfl rfl).1 (Or.inr (by decide))
  · exact (request_parse_failure_errors cfgRetryW stW transport200BadW .post "/_auth/me"
      (some []) none none rfl rfl rfl rfl).2.1 (by decide) (by decide)

/-- The map over `extractSingleKeyValue` fails with the add-login-ID
message as soon as some object does not have exactly one key. -/
theorem extractAllSingle_err (l : List (List (String × String))) :
    (∃ o ∈ l, o.length ≠ 1) →
      extractAllSingle l = .error "must provide exactly one login ID" := by
  induction l with
  | nil =>
    intro h
    simp at h
  | cons o rest ih =>
    intro h
    rcases h with ⟨o2, ho2, hlen⟩
    rcases List.mem_cons.mp ho2 with heq | hmem
    · subst heq
      simp [extractAllSingle, extractSingleKeyValue, hlen]
    · by_cases hlen1 : o.length = 1
      · simp [extractAllSingle, extractSingleKeyValue, hlen1, ih ⟨o2, hmem, hlen⟩]
      · simp [extractAllSingle, extractSingleKeyValue, hlen1]

/-- When every object has exactly one key, the map over
`extractSingleKeyValue` returns the heads of all objects. -/
theorem extractAllSingle_ok (l : List (List (String × String))) :
    (∀ o ∈ l, o.length = 1) →
      extractAllSingle l = .ok (l.filterMap List.head?) := by
  induction l with
  | nil =>
    intro _
    rfl
  | cons o rest ih =>
    intro h
    have h1 : o.length = 1 := h o (List.mem_cons_self o rest)
    obtain ⟨a, rfl⟩ := List.length_eq_one.mp h1
    have hrest := ih (fun o2 ho2 => h o2 (List.mem_cons_of_mem _ ho2))
    simp [extractAllSingle, extractSingleKeyValue, hrest]

/-- C9: `addLoginID`, `removeLoginID` and `updateLoginID` throw before any
network exchange (no event, state unchanged) whenever an identifier object
does not have exactly one key, and otherwise send the identifier mapped to
a key/value pair. -/
theorem loginID_ops_single_key (cfg : ClientConfig) (st : MutState) (tr : Transport)
    (ids : List (List (String × String))) (lid oldID newID : List (String × String)) :
    ((∃ o ∈ ids, o.length ≠ 1) →
      addLoginID cfg st tr ids
        = ⟨.error (.err "must provide exactly one login ID"), st, []⟩)
    ∧ ((∀ o ∈ ids, o.length = 1) →
      ∀ b ∈ exchangeBodies (addLoginID cfg st tr ids).events,
        b = some [("login_ids", some (.arr ((ids.filterMap List.head?).map fun kv =>
          .obj [("key", .str kv.1), ("value", .str kv.2)])))])
    ∧ (lid.length ≠ 1 →
      removeLoginID cfg st tr lid
        = ⟨.error (.err "must provide exactly one login ID"), st, []⟩)
    ∧ (lid.length = 1 →
      ∀ b ∈ exchangeBodies (removeLoginID cfg st tr lid).events,
        ∃ kv, lid = [kv]
          ∧ b = some [("key", some (.str kv.1)), ("value", some (.str kv.2))])
    ∧ ((oldID.length ≠ 1 ∨ newID.length ≠ 1) →
      ∃ msg, updateLoginID cfg st tr oldID newID = ⟨.error (.err msg), st, []⟩)
    ∧ (oldID.length = 1 → newID.length = 1 →
      ∀ b ∈ exchangeBodies (updateLoginID cfg st tr oldID newID).events,
        ∃ okv nkv, oldID = [okv] ∧ newID = [nkv]
          ∧ b = some
            [("old_login_id", some (.obj [("key", .str okv.1), ("value", .str okv.2)])),
            ("new_login_id", some (.obj [("key", .str nkv.1), ("value", .str nkv.2)]))]) := by
  refine ⟨?_, ?_, ?_, ?_, ?_, ?_⟩
  · intro h
    simp [addLoginID, extractAllSingle_err ids h]
  · intro h b hb
    rw [addLoginID, extractAllSingle_ok ids h] at hb
    exact exchangeBodies_postM cfg st tr _ _ _ b hb
  · intro h
    simp [removeLoginID, extractSingleKeyValue, h]
  · intro h b hb
    obtain ⟨kv, rfl⟩ := List.length_eq_one.mp h
    refine ⟨kv, rfl, ?_⟩
    simp only [removeLoginID, extractSingleKeyValue] at hb
    simp at hb
    exact exchangeBodies_postM cfg st tr _ _ _ b hb
  · intro h
    by_cases ho : oldID.length = 1
    · rcases h with h | h
      · exact absurd ho h
      · obtain ⟨a, rfl⟩ := List.length_eq_one.mp ho
        refine ⟨"must provide exactly one new login ID", ?_⟩
        simp [updateLoginID, extractSingleKeyValue, h]
    · refine ⟨"must provide exactly one old login ID", ?_⟩
      simp [updateLoginID, extractSingleKeyValue, ho]
  · intro h1 h2 b hb
    obtain ⟨okv, rfl⟩ := List.length_eq_one.mp h1
    obtain ⟨nkv, rfl⟩ := List.length_eq_one.mp h2
    refine ⟨okv, nkv, rfl, rfl, ?_⟩
    simp only [updateLoginID, extractSingleKeyValue] at hb
    simp at hb
    exact exchangeBodies_postM cfg st tr _ _ _ b hb

/-- Witness for C9: a zero-key identifier makes `removeLoginID` throw with
no event, and a one-key identifier is mapped to its key/value pair. -/
theorem loginID_ops_single_key_witness :
    (([] : List (String × String)).length ≠ 1)
    ∧ removeLoginID cfgRetryW stW transportOkW []
        = ⟨.error (.err "must provide exactly one login ID"), stW, []⟩
    ∧ ([("email", "a@b.com")] : List (String × String)).length = 1
    ∧ ∀ b ∈ exchangeBodies (removeLoginID cfgRetryW stW transportOkW
        [("email", "a@b.com")]).events,
        ∃ kv, ([("email", "a@b.com")] : List (String × String)) = [kv]
          ∧ b = some [("key", some (.str kv.1)), ("value", some (.str kv.2))] := by
  refine ⟨by decide, ?_, by decide, ?_⟩
  · exact (loginID_ops_single_key cfgRetryW stW transportOkW [] [] [] []).2.2.1 (by decide)
  · exact (loginID_ops_single_key cfgRetryW stW transportOkW []
      [("email", "a@b.com")] [] []).2.2.2.1 (by decide)

end Skygear
